import Mathlib

/-!
Shallow embedding of `download_binaries.py`: a downloader that fetches
FFmpeg/FFprobe archives for the host platform, extracts the executables with a
format-specific strategy (zip exact path, tar.xz exact path, 7z recursive
search) and installs them into a destination directory.

Filesystem effects (writes, permission changes, diagnostics) are modelled as
explicit event lists; the network and the downloaded archives are oracles
passed as parameters.
-/

namespace DownloadBinaries

/-- Substring test on lists of characters: does `p` occur starting at the head
of `s`?  Used to embed the Python `in` operator on strings. -/
def strStarts : List Char → List Char → Bool
  | [], _ => true
  | _ :: _, [] => false
  | a :: ps, b :: ss => a == b && strStarts ps ss

/-- Does `p` occur anywhere in `s`? -/
def strHas (p : List Char) : List Char → Bool
  | [] => strStarts p []
  | c :: ss => strStarts p (c :: ss) || strHas p ss

/-- Embedding of the Python expression `pat in s` for strings. -/
def strContains (s pat : String) : Bool := strHas pat.toList s.toList

/-- `BINARIES_DIR = os.path.abspath("src-tauri/binaries")`.  Absolutisation is
not modelled; paths are kept relative to the working directory. -/
def BINARIES_DIR : String := "src-tauri/binaries"

/-- One entry of the `URLS` configuration dict.  The Python dict values have
differing key sets, so every key the script ever reads appears here as an
optional field. -/
structure Config where
  url : String
  ext : String
  target_ffmpeg : Option String := none
  target_ffprobe : Option String := none
  target : Option String := none
  inner_dir : Option String := none
  inner_file : Option String := none
  deriving Repr, DecidableEq

/-- The static `URLS` catalog of the script, keyed by platform string. -/
def URLS : String → Option Config
  | "win64" => some
      { url := "https://github.com/BtbN/FFmpeg-Builds/releases/download/latest/ffmpeg-master-latest-win64-gpl.zip"
        ext := "zip"
        target_ffmpeg := some "ffmpeg-x86_64-pc-windows-msvc.exe"
        target_ffprobe := some "ffprobe-x86_64-pc-windows-msvc.exe"
        inner_dir := some "ffmpeg-master-latest-win64-gpl/bin" }
  | "linux64" => some
      { url := "https://github.com/BtbN/FFmpeg-Builds/releases/download/latest/ffmpeg-master-latest-linux64-gpl.tar.xz"
        ext := "tar.xz"
        target_ffmpeg := some "ffmpeg-x86_64-unknown-linux-gnu"
        target_ffprobe := some "ffprobe-x86_64-unknown-linux-gnu"
        inner_dir := some "ffmpeg-master-latest-linux64-gpl/bin" }
  | "macos_intel_ffmpeg" => some
      { url := "https://evermeet.cx/ffmpeg/getrelease/zip"
        ext := "zip"
        target := some "ffmpeg-x86_64-apple-darwin"
        inner_file := some "ffmpeg" }
  | "macos_intel_ffprobe" => some
      { url := "https://evermeet.cx/ffmpeg/ffprobe-122467-gc3d3377fe1.7z"
        ext := "7z"
        target := some "ffprobe-x86_64-apple-darwin"
        inner_file := some "ffprobe" }
  | _ => none

/-- A member of a zip archive: internal path and byte content. -/
structure ZipEntry where
  path : String
  data : List Nat
  deriving Repr, DecidableEq

/-- A member of a tar archive.  `isFile` is true for regular-file members;
directories, links and other member kinds have it false. -/
structure TarMember where
  path : String
  isFile : Bool
  data : List Nat
  deriving Repr, DecidableEq

mutual
/-- A directory tree: the regular-file names at this level plus named
subdirectories.  Models the contents of the scratch directory after a 7z
`extractall`. -/
inductive FsTree where
  | node (files : List String) (dirs : FsForest)
  deriving Repr, DecidableEq
/-- The list of named subdirectories of an `FsTree` node. -/
inductive FsForest where
  | nil
  | fcons (name : String) (tree : FsTree) (rest : FsForest)
  deriving Repr, DecidableEq
end

/-- The downloaded archive handed to `extract_and_install`, in the shape the
chosen strategy opens it: a zip member list, a tar member list, or (for 7z) the
directory tree that `extractall` leaves under the scratch directory. -/
inductive ArchiveData where
  | zipA (entries : List ZipEntry)
  | tarA (members : List TarMember)
  | sevenzA (tree : FsTree)
  deriving Repr, DecidableEq

/-- A filesystem/console effect of `extract_and_install`, in program order. -/
inductive Event where
  | extractAll (root : String)
  | copyFile (src dest : String)
  | writeBytes (dest : String) (data : List Nat)
  | chmod (dest : String) (mode : Nat)
  | msg (s : String)
  deriving Repr, DecidableEq

/-- `zf.open(path)`: member lookup in a zip archive; `none` models the
`KeyError` raised for a missing member. -/
def zipOpen (entries : List ZipEntry) (path : String) : Option (List Nat) :=
  match entries.find? (fun e => e.path == path) with
  | some e => some e.data
  | none => none

/-- `tf.getmember(path)`: member lookup in a tar archive; `none` models the
`KeyError` for a missing member.  Archives with duplicate member paths are
outside the scope of the claims; lookup returns the first match. -/
def tarGetmember (members : List TarMember) (path : String) : Option TarMember :=
  members.find? (fun m => m.path == path)

/-- `tf.extractfile(member)`: yields the byte stream of a regular-file member
and `None` (here `none`) for any other member kind. -/
def tarExtractfile (m : TarMember) : Option (List Nat) :=
  if m.isFile then some m.data else none

mutual
/-- `os.walk(path)` over an `FsTree`, keeping the `(root, files)` components
the script uses: top-down, the root directory first, then each subdirectory
recursively in order. -/
def walk (path : String) : FsTree → List (String × List String)
  | .node files dirs => (path, files) :: walkForest path dirs
/-- `os.walk` continued over the subdirectory list. -/
def walkForest (path : String) : FsForest → List (String × List String)
  | .nil => []
  | .fcons name t rest => walk (path ++ "/" ++ name) t ++ walkForest path rest
end

mutual
/-- Does the tree contain a regular file named `target`, at any depth? -/
def containsFile : FsTree → String → Bool
  | .node files dirs, target => files.contains target || containsFileF dirs target
/-- `containsFile` over a subdirectory list. -/
def containsFileF : FsForest → String → Bool
  | .nil, _ => false
  | .fcons _ t rest, target => containsFile t target || containsFileF rest target
end

/-- The search loop of the 7z branch: walk the `(root, files)` list in order
and return `root ++ "/" ++ target` for the first `root` whose file list
contains `target` (the loop `break`s at the first hit). -/
def find7z (target : String) : List (String × List String) → Option String
  | [] => none
  | (root, files) :: rest =>
    if files.contains target then some (root ++ "/" ++ target) else find7z target rest

/-- The 7z branch of `extract_and_install`: `z.extractall(path=temp_dir)`
followed by the `os.walk(temp_dir)` search; on a hit, `shutil.copy` then
`os.chmod(dest, 0o755)`.  The `tree` argument is the contents of `temp_dir`
after the `extractall`. -/
def process7z (config : Config) (tree : FsTree) (temp_dir : String) : List Event :=
  Event.extractAll temp_dir ::
    match find7z (config.inner_file.getD "") (walk temp_dir tree) with
    | some src_path =>
      let dest_path := BINARIES_DIR ++ "/" ++ config.target.getD ""
      [Event.copyFile src_path dest_path, Event.chmod dest_path 0o755,
       Event.msg ("Installed " ++ config.target.getD "")]
    | none => [Event.msg ("Error: " ++ config.inner_file.getD "" ++ " not found in 7z archive")]

/-- One iteration of the win64 zip loop body.  `zf.open(src_path)` is entered
before `open(dest_path, "wb")`, so a missing member raises before the
destination is ever opened; the `none` branch therefore performs no write.
No `os.chmod` occurs in this branch. -/
def processBinaryZipWin (config : Config) (zs : List ZipEntry) (binary : String) : List Event :=
  let src_path := config.inner_dir.getD "" ++ "/" ++ binary
  let dest_name := if strContains binary "ffmpeg" then config.target_ffmpeg.getD ""
                   else config.target_ffprobe.getD ""
  let dest_path := BINARIES_DIR ++ "/" ++ dest_name
  match zipOpen zs src_path with
  | some bytes => [Event.writeBytes dest_path bytes, Event.msg ("Installed " ++ dest_name)]
  | none => [Event.msg ("Error: " ++ src_path ++ " not found in zip")]

/-- The macOS zip branch: single member at `inner_file`, copied to `target`
and made executable; a missing member prints an error and writes nothing
(again `zf.open` precedes the destination `open`). -/
def processZipMacos (config : Config) (zs : List ZipEntry) : List Event :=
  let src_path := config.inner_file.getD ""
  let dest_path := BINARIES_DIR ++ "/" ++ config.target.getD ""
  match zipOpen zs src_path with
  | some bytes => [Event.writeBytes dest_path bytes, Event.chmod dest_path 0o755,
                   Event.msg ("Installed " ++ config.target.getD "")]
  | none => [Event.msg ("Error: " ++ src_path ++ " not found in zip")]

/-- One iteration of the tar.xz loop body: `getmember` (KeyError prints the
not-found error), then `extractfile`; a member that is not a regular file
yields `None` from `extractfile`, and the `if f:` guard then skips the binary
with no write and no diagnostic. -/
def processBinaryTar (config : Config) (members : List TarMember) (binary : String) : List Event :=
  let src_path := config.inner_dir.getD "" ++ "/" ++ binary
  let dest_name := if strContains binary "ffmpeg" then config.target_ffmpeg.getD ""
                   else config.target_ffprobe.getD ""
  let dest_path := BINARIES_DIR ++ "/" ++ dest_name
  match tarGetmember members src_path with
  | none => [Event.msg ("Error: " ++ src_path ++ " not found in tar")]
  | some m =>
    match tarExtractfile m with
    | none => []
    | some bytes => [Event.writeBytes dest_path bytes, Event.chmod dest_path 0o755,
                     Event.msg ("Installed " ++ dest_name)]

/-- `extract_and_install(key, archive_path, temp_dir)`.  The archive content
is passed as data; a format/content mismatch (an archive the chosen library
cannot open) lands in the surrounding `except` clause, modelled as the single
"Error processing" diagnostic. -/
def extract_and_install (key : String) (archive : ArchiveData) (temp_dir : String) : List Event :=
  match URLS key with
  | none => []
  | some config =>
    if config.ext == "7z" then
      match archive with
      | .sevenzA tree => process7z config tree temp_dir
      | _ => [Event.msg ("Error processing " ++ key)]
    else if config.ext == "zip" then
      match archive with
      | .zipA zs =>
        if strContains key "win64" then
          ["ffmpeg.exe", "ffprobe.exe"].flatMap (processBinaryZipWin config zs)
        else if strContains key "macos" then
          processZipMacos config zs
        else []
      | _ => [Event.msg ("Error processing " ++ key)]
    else if config.ext == "tar.xz" then
      match archive with
      | .tarA members => ["ffmpeg", "ffprobe"].flatMap (processBinaryTar config members)
      | _ => [Event.msg ("Error processing " ++ key)]
    else []

/-- A step of `main`'s run, in program order. -/
inductive Step where
  | download (url : String) (dest : String) (ok : Bool)
  | entry (key : String) (evs : List Event)
  | rmScratch (dir : String) (ok : Bool)
  | diag (s : String)
  deriving Repr, DecidableEq

/-- Outcome of a run of the script: its step trace and the process exit
status. -/
structure RunResult where
  steps : List Step
  exitCode : Nat
  deriving Repr, DecidableEq

/-- The scratch directory `temp_dir = "temp_downloads"` created by `main` and
shared by every entry of the run. -/
def temp_dir_name : String := "temp_downloads"

/-- The platform-selection chain of `main`: which catalog keys are processed
for a given `platform.system()` value.  Unrecognized systems select nothing
(and `main` returns early). -/
def keys_to_process (current_os : String) : List String :=
  if current_os = "Windows" then ["win64"]
  else if current_os = "Linux" then ["linux64"]
  else if current_os = "Darwin" then ["macos_intel_ffmpeg", "macos_intel_ffprobe"]
  else []

/-- The per-key body of `main`'s loop: `download_file` (which catches every
exception and returns `False` with a diagnostic), then, only on success,
`extract_and_install` on the downloaded archive.  `fetchOk` is the network
oracle and `archiveOf` the content oracle for the downloaded archive. -/
def processKey (fetchOk : String → Bool) (archiveOf : String → ArchiveData)
    (key : String) : List Step :=
  match URLS key with
  | none => []
  | some config =>
    let filepath := temp_dir_name ++ "/" ++ key ++ "." ++ config.ext
    if fetchOk key then
      [Step.download config.url filepath true,
       Step.entry key (extract_and_install key (archiveOf key) temp_dir_name)]
    else
      [Step.download config.url filepath false,
       Step.diag ("Error downloading " ++ config.url)]

/-- `main()`.  On an unrecognized platform it prints the unsupported-OS
diagnostic and returns before the download loop.  The final `shutil.rmtree`
is wrapped in `try/except` (`rmOk` is the filesystem oracle), so the run
always reaches `print("Done!")`.  No path of `main` calls `sys.exit`, so the
interpreter exits with status 0 in every case (the script's only `sys.exit(1)`
guards the `py7zr` import at module load, before `main` runs). -/
def pyMain (current_os : String) (fetchOk : String → Bool)
    (archiveOf : String → ArchiveData) (rmOk : Bool) : RunResult :=
  if current_os = "Windows" ∨ current_os = "Linux" ∨ current_os = "Darwin" then
    let steps := (keys_to_process current_os).flatMap (processKey fetchOk archiveOf)
    let cleanup :=
      if rmOk then [Step.rmScratch temp_dir_name true]
      else [Step.rmScratch temp_dir_name false, Step.diag "Warning: Could not remove temp dir"]
    { steps := steps ++ cleanup ++ [Step.diag "Done!"], exitCode := 0 }
  else
    { steps := [Step.diag ("Unsupported OS: " ++ current_os)], exitCode := 0 }

/-- The destination files written by a list of events: `(path, bytes)` for
each `open(dest, "wb")` copy. -/
def writesOf (evs : List Event) : List (String × List Nat) :=
  evs.filterMap (fun e => match e with | .writeBytes d b => some (d, b) | _ => none)

/-- The `chmod` events of an event list. -/
def chmodsOf (evs : List Event) : List (String × Nat) :=
  evs.filterMap (fun e => match e with | .chmod d m => some (d, m) | _ => none)

/-- The URLs a run requests from the network, in order. -/
def requestedUrls (steps : List Step) : List String :=
  steps.filterMap (fun s => match s with | .download url _ _ => some url | _ => none)

/-- Every byte write or file copy in the event list is immediately followed by
a `chmod` of the same destination to `0o755`. -/
def chmodAfterWrites : List Event → Bool
  | [] => true
  | Event.writeBytes d _ :: rest =>
      (match rest with
       | Event.chmod d2 m :: _ => d2 == d && m == 0o755
       | _ => false) && chmodAfterWrites rest
  | Event.copyFile _ d :: rest =>
      (match rest with
       | Event.chmod d2 m :: _ => d2 == d && m == 0o755
       | _ => false) && chmodAfterWrites rest
  | _ :: rest => chmodAfterWrites rest

end DownloadBinaries


namespace DownloadBinaries

/-- Destination path the win64 zip branch computes for a requested binary
name, read off the catalog entry. -/
def win64Dest (binary : String) : String :=
  match URLS "win64" with
  | some config =>
      BINARIES_DIR ++ "/" ++ (if strContains binary "ffmpeg" then config.target_ffmpeg.getD ""
                              else config.target_ffprobe.getD "")
  | none => ""

/-- Unfolding of the win64 zip processing into its two per-binary blocks. -/
theorem win64_unfold (zs : List ZipEntry) (temp : String) :
    extract_and_install "win64" (ArchiveData.zipA zs) temp =
      (match zipOpen zs "ffmpeg-master-latest-win64-gpl/bin/ffmpeg.exe" with
       | some bytes =>
           [Event.writeBytes "src-tauri/binaries/ffmpeg-x86_64-pc-windows-msvc.exe" bytes,
            Event.msg "Installed ffmpeg-x86_64-pc-windows-msvc.exe"]
       | none => [Event.msg "Error: ffmpeg-master-latest-win64-gpl/bin/ffmpeg.exe not found in zip"]) ++
      (match zipOpen zs "ffmpeg-master-latest-win64-gpl/bin/ffprobe.exe" with
       | some bytes =>
           [Event.writeBytes "src-tauri/binaries/ffprobe-x86_64-pc-windows-msvc.exe" bytes,
            Event.msg "Installed ffprobe-x86_64-pc-windows-msvc.exe"]
       | none => [Event.msg "Error: ffmpeg-master-latest-win64-gpl/bin/ffprobe.exe not found in zip"]) := by
  have h : extract_and_install "win64" (ArchiveData.zipA zs) temp =
      (match zipOpen zs "ffmpeg-master-latest-win64-gpl/bin/ffmpeg.exe" with
       | some bytes =>
           [Event.writeBytes "src-tauri/binaries/ffmpeg-x86_64-pc-windows-msvc.exe" bytes,
            Event.msg "Installed ffmpeg-x86_64-pc-windows-msvc.exe"]
       | none => [Event.msg "Error: ffmpeg-master-latest-win64-gpl/bin/ffmpeg.exe not found in zip"]) ++
      ((match zipOpen zs "ffmpeg-master-latest-win64-gpl/bin/ffprobe.exe" with
       | some bytes =>
           [Event.writeBytes "src-tauri/binaries/ffprobe-x86_64-pc-windows-msvc.exe" bytes,
            Event.msg "Installed ffprobe-x86_64-pc-windows-msvc.exe"]
       | none => [Event.msg "Error: ffmpeg-master-latest-win64-gpl/bin/ffprobe.exe not found in zip"]) ++ []) := by
    with_unfolding_all rfl
  simpa using h

/-- C1: processing the win64 catalog entry on a well-formed zip archive that
contains both requested members at the configured internal directory yields
exactly two destination writes, named by the mapped destination filenames and
byte-identical to the corresponding archive members. -/
theorem win64_zip_installs_both_binaries (zs : List ZipEntry) (b1 b2 : List Nat) (temp : String)
    (h1 : zipOpen zs "ffmpeg-master-latest-win64-gpl/bin/ffmpeg.exe" = some b1)
    (h2 : zipOpen zs "ffmpeg-master-latest-win64-gpl/bin/ffprobe.exe" = some b2) :
    writesOf (extract_and_install "win64" (ArchiveData.zipA zs) temp) =
      [("src-tauri/binaries/ffmpeg-x86_64-pc-windows-msvc.exe", b1),
       ("src-tauri/binaries/ffprobe-x86_64-pc-windows-msvc.exe", b2)] := by
  rw [win64_unfold, h1, h2]
  rfl

/-- Witness for C1 on a concrete two-member archive. -/
theorem win64_zip_installs_both_binaries_witness :
    writesOf (extract_and_install "win64"
      (ArchiveData.zipA
        [⟨"ffmpeg-master-latest-win64-gpl/bin/ffmpeg.exe", [1, 2]⟩,
         ⟨"ffmpeg-master-latest-win64-gpl/bin/ffprobe.exe", [3]⟩]) "temp_downloads") =
      [("src-tauri/binaries/ffmpeg-x86_64-pc-windows-msvc.exe", [1, 2]),
       ("src-tauri/binaries/ffprobe-x86_64-pc-windows-msvc.exe", [3])] :=
  win64_zip_installs_both_binaries _ [1, 2] [3] "temp_downloads" (by decide) (by decide)

end DownloadBinaries

namespace DownloadBinaries

/-- C2: in the win64 zip archive, a missing requested member only fails that
one binary — any other requested member present in the archive is still
extracted and installed. -/
theorem zip_missing_member_failure_scoped (zs : List ZipEntry) (temp binary other : String)
    (b : List Nat)
    (hb : binary ∈ ["ffmpeg.exe", "ffprobe.exe"])
    (ho : other ∈ ["ffmpeg.exe", "ffprobe.exe"])
    (hne : other ≠ binary)
    (hmiss : zipOpen zs ("ffmpeg-master-latest-win64-gpl/bin/" ++ other) = none)
    (hfound : zipOpen zs ("ffmpeg-master-latest-win64-gpl/bin/" ++ binary) = some b) :
    (win64Dest binary, b) ∈ writesOf (extract_and_install "win64" (ArchiveData.zipA zs) temp) := by
  simp only [List.mem_cons, List.not_mem_nil, or_false] at hb ho
  rcases hb with rfl | rfl <;> rcases ho with rfl | rfl <;> try exact absurd rfl hne
  · rw [show ("ffmpeg-master-latest-win64-gpl/bin/" ++ "ffmpeg.exe" : String) =
        "ffmpeg-master-latest-win64-gpl/bin/ffmpeg.exe" from rfl] at hfound
    rw [show ("ffmpeg-master-latest-win64-gpl/bin/" ++ "ffprobe.exe" : String) =
        "ffmpeg-master-latest-win64-gpl/bin/ffprobe.exe" from rfl] at hmiss
    rw [show win64Dest "ffmpeg.exe" = "src-tauri/binaries/ffmpeg-x86_64-pc-windows-msvc.exe"
        from rfl]
    rw [win64_unfold, hfound, hmiss]
    simp [writesOf]
  · rw [show ("ffmpeg-master-latest-win64-gpl/bin/" ++ "ffprobe.exe" : String) =
        "ffmpeg-master-latest-win64-gpl/bin/ffprobe.exe" from rfl] at hfound
    rw [show ("ffmpeg-master-latest-win64-gpl/bin/" ++ "ffmpeg.exe" : String) =
        "ffmpeg-master-latest-win64-gpl/bin/ffmpeg.exe" from rfl] at hmiss
    rw [show win64Dest "ffprobe.exe" = "src-tauri/binaries/ffprobe-x86_64-pc-windows-msvc.exe"
        from rfl]
    rw [win64_unfold, hfound, hmiss]
    simp [writesOf]

/-- Witness for C2: an archive missing `ffmpeg.exe` still installs
`ffprobe.exe`. -/
theorem zip_missing_member_failure_scoped_witness :
    (win64Dest "ffprobe.exe", [3]) ∈ writesOf (extract_and_install "win64"
      (ArchiveData.zipA [⟨"ffmpeg-master-latest-win64-gpl/bin/ffprobe.exe", [3]⟩])
      "temp_downloads") :=
  zip_missing_member_failure_scoped _ "temp_downloads" "ffprobe.exe" "ffmpeg.exe" [3]
    (by decide) (by decide) (by decide) (by decide) (by decide)

end DownloadBinaries

namespace DownloadBinaries

/-- C9: when a requested zip member is missing, no write ever targets that
binary's destination file (the member lookup raises before the destination is
opened), and the per-binary not-found diagnostic is emitted instead. -/
theorem zip_missing_member_dest_untouched (zs : List ZipEntry) (temp binary : String)
    (hb : binary ∈ ["ffmpeg.exe", "ffprobe.exe"])
    (hmiss : zipOpen zs ("ffmpeg-master-latest-win64-gpl/bin/" ++ binary) = none) :
    (∀ b : List Nat,
      (win64Dest binary, b) ∉ writesOf (extract_and_install "win64" (ArchiveData.zipA zs) temp)) ∧
    Event.msg ("Error: ffmpeg-master-latest-win64-gpl/bin/" ++ binary ++ " not found in zip")
      ∈ extract_and_install "win64" (ArchiveData.zipA zs) temp := by
  simp only [List.mem_cons, List.not_mem_nil, or_false] at hb
  rcases hb with rfl | rfl
  · rw [show ("ffmpeg-master-latest-win64-gpl/bin/" ++ "ffmpeg.exe" : String) =
        "ffmpeg-master-latest-win64-gpl/bin/ffmpeg.exe" from rfl] at hmiss
    rw [show win64Dest "ffmpeg.exe" = "src-tauri/binaries/ffmpeg-x86_64-pc-windows-msvc.exe"
        from rfl]
    rw [show ("Error: ffmpeg-master-latest-win64-gpl/bin/" ++ "ffmpeg.exe" ++ " not found in zip"
        : String) = "Error: ffmpeg-master-latest-win64-gpl/bin/ffmpeg.exe not found in zip"
        from rfl]
    rw [win64_unfold, hmiss]
    cases hoth : zipOpen zs "ffmpeg-master-latest-win64-gpl/bin/ffprobe.exe" <;>
      simp [writesOf]
  · rw [show ("ffmpeg-master-latest-win64-gpl/bin/" ++ "ffprobe.exe" : String) =
        "ffmpeg-master-latest-win64-gpl/bin/ffprobe.exe" from rfl] at hmiss
    rw [show win64Dest "ffprobe.exe" = "src-tauri/binaries/ffprobe-x86_64-pc-windows-msvc.exe"
        from rfl]
    rw [show ("Error: ffmpeg-master-latest-win64-gpl/bin/" ++ "ffprobe.exe" ++ " not found in zip"
        : String) = "Error: ffmpeg-master-latest-win64-gpl/bin/ffprobe.exe not found in zip"
        from rfl]
    rw [win64_unfold, hmiss]
    cases hoth : zipOpen zs "ffmpeg-master-latest-win64-gpl/bin/ffmpeg.exe" <;>
      simp [writesOf]

/-- Witness for C9: with `ffmpeg.exe` absent its destination is never written
and its not-found error is printed. -/
theorem zip_missing_member_dest_untouched_witness :
    (∀ b : List Nat,
      (win64Dest "ffmpeg.exe", b) ∉ writesOf (extract_and_install "win64"
        (ArchiveData.zipA [⟨"ffmpeg-master-latest-win64-gpl/bin/ffprobe.exe", [3]⟩])
        "temp_downloads")) ∧
    Event.msg ("Error: ffmpeg-master-latest-win64-gpl/bin/" ++ "ffmpeg.exe" ++ " not found in zip")
      ∈ extract_and_install "win64"
        (ArchiveData.zipA [⟨"ffmpeg-master-latest-win64-gpl/bin/ffprobe.exe", [3]⟩])
        "temp_downloads" :=
  zip_missing_member_dest_untouched _ "temp_downloads" "ffmpeg.exe" (by decide) (by decide)

end DownloadBinaries

namespace DownloadBinaries

/-- Destination filename the tar.xz branch computes for a requested binary
name, read off the catalog entry. -/
def linux64DestName (binary : String) : String :=
  match URLS "linux64" with
  | some config =>
      if strContains binary "ffmpeg" then config.target_ffmpeg.getD ""
      else config.target_ffprobe.getD ""
  | none => ""

/-- Destination path of the tar.xz branch for a requested binary name. -/
def linux64Dest (binary : String) : String :=
  BINARIES_DIR ++ "/" ++ linux64DestName binary

/-- Unfolding of the linux64 tar.xz processing into its two per-binary
blocks. -/
theorem linux64_unfold (ms : List TarMember) (temp : String) :
    extract_and_install "linux64" (ArchiveData.tarA ms) temp =
      (match tarGetmember ms "ffmpeg-master-latest-linux64-gpl/bin/ffmpeg" with
       | none => [Event.msg "Error: ffmpeg-master-latest-linux64-gpl/bin/ffmpeg not found in tar"]
       | some m =>
         match tarExtractfile m with
         | none => []
         | some bytes =>
             [Event.writeBytes "src-tauri/binaries/ffmpeg-x86_64-unknown-linux-gnu" bytes,
              Event.chmod "src-tauri/binaries/ffmpeg-x86_64-unknown-linux-gnu" 0o755,
              Event.msg "Installed ffmpeg-x86_64-unknown-linux-gnu"]) ++
      (match tarGetmember ms "ffmpeg-master-latest-linux64-gpl/bin/ffprobe" with
       | none => [Event.msg "Error: ffmpeg-master-latest-linux64-gpl/bin/ffprobe not found in tar"]
       | some m =>
         match tarExtractfile m with
         | none => []
         | some bytes =>
             [Event.writeBytes "src-tauri/binaries/ffprobe-x86_64-unknown-linux-gnu" bytes,
              Event.chmod "src-tauri/binaries/ffprobe-x86_64-unknown-linux-gnu" 0o755,
              Event.msg "Installed ffprobe-x86_64-unknown-linux-gnu"]) := by
  have h : extract_and_install "linux64" (ArchiveData.tarA ms) temp =
      (match tarGetmember ms "ffmpeg-master-latest-linux64-gpl/bin/ffmpeg" with
       | none => [Event.msg "Error: ffmpeg-master-latest-linux64-gpl/bin/ffmpeg not found in tar"]
       | some m =>
         match tarExtractfile m with
         | none => []
         | some bytes =>
             [Event.writeBytes "src-tauri/binaries/ffmpeg-x86_64-unknown-linux-gnu" bytes,
              Event.chmod "src-tauri/binaries/ffmpeg-x86_64-unknown-linux-gnu" 0o755,
              Event.msg "Installed ffmpeg-x86_64-unknown-linux-gnu"]) ++
      ((match tarGetmember ms "ffmpeg-master-latest-linux64-gpl/bin/ffprobe" with
       | none => [Event.msg "Error: ffmpeg-master-latest-linux64-gpl/bin/ffprobe not found in tar"]
       | some m =>
         match tarExtractfile m with
         | none => []
         | some bytes =>
             [Event.writeBytes "src-tauri/binaries/ffprobe-x86_64-unknown-linux-gnu" bytes,
              Event.chmod "src-tauri/binaries/ffprobe-x86_64-unknown-linux-gnu" 0o755,
              Event.msg "Installed ffprobe-x86_64-unknown-linux-gnu"]) ++ []) := by
    with_unfolding_all rfl
  simpa using h

end DownloadBinaries

namespace DownloadBinaries

/-- C10: in the tar.xz branch, a member that exists at the exact internal path
but is not a regular file (so `extractfile` yields no stream) is skipped
silently — no write targets that binary's destination, and neither the
not-found diagnostic nor the installed message is emitted for it. -/
theorem tar_nonfile_member_skipped_silently (ms : List TarMember) (temp binary : String)
    (m : TarMember)
    (hb : binary ∈ ["ffmpeg", "ffprobe"])
    (hm : tarGetmember ms ("ffmpeg-master-latest-linux64-gpl/bin/" ++ binary) = some m)
    (hnf : m.isFile = false) :
    (∀ b : List Nat,
      (linux64Dest binary, b) ∉ writesOf (extract_and_install "linux64" (ArchiveData.tarA ms) temp)) ∧
    Event.msg ("Error: ffmpeg-master-latest-linux64-gpl/bin/" ++ binary ++ " not found in tar")
      ∉ extract_and_install "linux64" (ArchiveData.tarA ms) temp ∧
    Event.msg ("Installed " ++ linux64DestName binary)
      ∉ extract_and_install "linux64" (ArchiveData.tarA ms) temp := by
  have hext : tarExtractfile m = none := by simp [tarExtractfile, hnf]
  simp only [List.mem_cons, List.not_mem_nil, or_false] at hb
  rcases hb with rfl | rfl
  · rw [show ("ffmpeg-master-latest-linux64-gpl/bin/" ++ "ffmpeg" : String) =
        "ffmpeg-master-latest-linux64-gpl/bin/ffmpeg" from rfl] at hm
    rw [show linux64Dest "ffmpeg" = "src-tauri/binaries/ffmpeg-x86_64-unknown-linux-gnu" from rfl]
    rw [show ("Error: ffmpeg-master-latest-linux64-gpl/bin/" ++ "ffmpeg" ++ " not found in tar"
        : String) = "Error: ffmpeg-master-latest-linux64-gpl/bin/ffmpeg not found in tar" from rfl]
    rw [show ("Installed " ++ linux64DestName "ffmpeg" : String) =
        "Installed ffmpeg-x86_64-unknown-linux-gnu" from rfl]
    rw [linux64_unfold, hm]
    cases hoth : tarGetmember ms "ffmpeg-master-latest-linux64-gpl/bin/ffprobe" with
    | none => simp [writesOf, hext]
    | some m2 => cases hf : tarExtractfile m2 <;> simp [writesOf, hext, hf]
  · rw [show ("ffmpeg-master-latest-linux64-gpl/bin/" ++ "ffprobe" : String) =
        "ffmpeg-master-latest-linux64-gpl/bin/ffprobe" from rfl] at hm
    rw [show linux64Dest "ffprobe" = "src-tauri/binaries/ffprobe-x86_64-unknown-linux-gnu" from rfl]
    rw [show ("Error: ffmpeg-master-latest-linux64-gpl/bin/" ++ "ffprobe" ++ " not found in tar"
        : String) = "Error: ffmpeg-master-latest-linux64-gpl/bin/ffprobe not found in tar" from rfl]
    rw [show ("Installed " ++ linux64DestName "ffprobe" : String) =
        "Installed ffprobe-x86_64-unknown-linux-gnu" from rfl]
    rw [linux64_unfold, hm]
    cases hoth : tarGetmember ms "ffmpeg-master-latest-linux64-gpl/bin/ffmpeg" with
    | none => simp [writesOf, hext]
    | some m2 => cases hf : tarExtractfile m2 <;> simp [writesOf, hext, hf]

/-- Witness for C10: a directory member at the ffmpeg path is skipped with no
write and no diagnostic, while the sibling regular file is still installed. -/
theorem tar_nonfile_member_skipped_silently_witness :
    (∀ b : List Nat,
      (linux64Dest "ffmpeg", b) ∉ writesOf (extract_and_install "linux64"
        (ArchiveData.tarA
          [⟨"ffmpeg-master-latest-linux64-gpl/bin/ffmpeg", false, []⟩,
           ⟨"ffmpeg-master-latest-linux64-gpl/bin/ffprobe", true, [9]⟩]) "temp_downloads")) ∧
    Event.msg ("Error: ffmpeg-master-latest-linux64-gpl/bin/" ++ "ffmpeg" ++ " not found in tar")
      ∉ extract_and_install "linux64"
        (ArchiveData.tarA
          [⟨"ffmpeg-master-latest-linux64-gpl/bin/ffmpeg", false, []⟩,
           ⟨"ffmpeg-master-latest-linux64-gpl/bin/ffprobe", true, [9]⟩]) "temp_downloads" ∧
    Event.msg ("Installed " ++ linux64DestName "ffmpeg")
      ∉ extract_and_install "linux64"
        (ArchiveData.tarA
          [⟨"ffmpeg-master-latest-linux64-gpl/bin/ffmpeg", false, []⟩,
           ⟨"ffmpeg-master-latest-linux64-gpl/bin/ffprobe", true, [9]⟩]) "temp_downloads" :=
  tar_nonfile_member_skipped_silently _ "temp_downloads" "ffmpeg"
    ⟨"ffmpeg-master-latest-linux64-gpl/bin/ffmpeg", false, []⟩
    (by decide) (by decide) (by decide)

end DownloadBinaries

namespace DownloadBinaries

/-- Unfolding of the macOS zip processing (single member at the archive
root). -/
theorem macos_zip_unfold (zs : List ZipEntry) (temp : String) :
    extract_and_install "macos_intel_ffmpeg" (ArchiveData.zipA zs) temp =
      (match zipOpen zs "ffmpeg" with
       | some bytes =>
           [Event.writeBytes "src-tauri/binaries/ffmpeg-x86_64-apple-darwin" bytes,
            Event.chmod "src-tauri/binaries/ffmpeg-x86_64-apple-darwin" 0o755,
            Event.msg "Installed ffmpeg-x86_64-apple-darwin"]
       | none => [Event.msg "Error: ffmpeg not found in zip"]) := by
  with_unfolding_all rfl

/-- Unfolding of the 7z processing: full extraction into the scratch
directory, then the walk-based search. -/
theorem sevenz_unfold (tree : FsTree) (temp : String) :
    extract_and_install "macos_intel_ffprobe" (ArchiveData.sevenzA tree) temp =
      Event.extractAll temp ::
        (match find7z "ffprobe" (walk temp tree) with
         | some src =>
             [Event.copyFile src "src-tauri/binaries/ffprobe-x86_64-apple-darwin",
              Event.chmod "src-tauri/binaries/ffprobe-x86_64-apple-darwin" 0o755,
              Event.msg "Installed ffprobe-x86_64-apple-darwin"]
         | none => [Event.msg "Error: ffprobe not found in 7z archive"]) := by
  with_unfolding_all rfl

/-- A zip payload handed to the tar.xz strategy lands in the catch-all error
branch. -/
theorem linux64_zip_mismatch (zs : List ZipEntry) (temp : String) :
    extract_and_install "linux64" (ArchiveData.zipA zs) temp =
      [Event.msg "Error processing linux64"] := by
  with_unfolding_all rfl

/-- A 7z payload handed to the tar.xz strategy lands in the catch-all error
branch. -/
theorem linux64_sevenz_mismatch (tree : FsTree) (temp : String) :
    extract_and_install "linux64" (ArchiveData.sevenzA tree) temp =
      [Event.msg "Error processing linux64"] := by
  with_unfolding_all rfl

/-- A tar payload handed to the macOS zip strategy lands in the catch-all
error branch. -/
theorem macos_zip_tar_mismatch (ms : List TarMember) (temp : String) :
    extract_and_install "macos_intel_ffmpeg" (ArchiveData.tarA ms) temp =
      [Event.msg "Error processing macos_intel_ffmpeg"] := by
  with_unfolding_all rfl

/-- A 7z payload handed to the macOS zip strategy lands in the catch-all
error branch. -/
theorem macos_zip_sevenz_mismatch (tree : FsTree) (temp : String) :
    extract_and_install "macos_intel_ffmpeg" (ArchiveData.sevenzA tree) temp =
      [Event.msg "Error processing macos_intel_ffmpeg"] := by
  with_unfolding_all rfl

/-- A zip payload handed to the 7z strategy lands in the catch-all error
branch. -/
theorem sevenz_zip_mismatch (zs : List ZipEntry) (temp : String) :
    extract_and_install "macos_intel_ffprobe" (ArchiveData.zipA zs) temp =
      [Event.msg "Error processing macos_intel_ffprobe"] := by
  with_unfolding_all rfl

/-- A tar payload handed to the 7z strategy lands in the catch-all error
branch. -/
theorem sevenz_tar_mismatch (ms : List TarMember) (temp : String) :
    extract_and_install "macos_intel_ffprobe" (ArchiveData.tarA ms) temp =
      [Event.msg "Error processing macos_intel_ffprobe"] := by
  with_unfolding_all rfl

/-- A tar payload handed to the win64 zip strategy lands in the catch-all
error branch. -/
theorem win64_tar_mismatch (ms : List TarMember) (temp : String) :
    extract_and_install "win64" (ArchiveData.tarA ms) temp =
      [Event.msg "Error processing win64"] := by
  with_unfolding_all rfl

/-- A 7z payload handed to the win64 zip strategy lands in the catch-all
error branch. -/
theorem win64_sevenz_mismatch (tree : FsTree) (temp : String) :
    extract_and_install "win64" (ArchiveData.sevenzA tree) temp =
      [Event.msg "Error processing win64"] := by
  with_unfolding_all rfl

end DownloadBinaries

namespace DownloadBinaries

/-- C8: for every catalog entry selected on a POSIX platform (Linux or
Darwin), each successful copy to a destination file is immediately followed by
`chmod 0o755` of that file, whatever archive content arrives; the entry
selected on Windows performs no permission step at all. -/
theorem posix_installs_set_exec_permission (os key wkey : String)
    (archive archiveW : ArchiveData) (temp : String)
    (hpos : os = "Linux" ∨ os = "Darwin")
    (hkey : key ∈ keys_to_process os)
    (hwkey : wkey ∈ keys_to_process "Windows") :
    chmodAfterWrites (extract_and_install key archive temp) = true ∧
    chmodsOf (extract_and_install wkey archiveW temp) = [] := by
  rw [show keys_to_process "Windows" = ["win64"] from rfl] at hwkey
  simp only [List.mem_cons, List.not_mem_nil, or_false] at hwkey
  subst hwkey
  constructor
  · rcases hpos with rfl | rfl
    · rw [show keys_to_process "Linux" = ["linux64"] from rfl] at hkey
      simp only [List.mem_cons, List.not_mem_nil, or_false] at hkey
      subst hkey
      cases archive with
      | zipA zs => rw [linux64_zip_mismatch]; decide
      | sevenzA tree => rw [linux64_sevenz_mismatch]; decide
      | tarA ms =>
        rw [linux64_unfold]
        cases h1 : tarGetmember ms "ffmpeg-master-latest-linux64-gpl/bin/ffmpeg" with
        | none =>
          cases h2 : tarGetmember ms "ffmpeg-master-latest-linux64-gpl/bin/ffprobe" with
          | none => simp [chmodAfterWrites]
          | some m2 => cases hf2 : tarExtractfile m2 <;> simp [chmodAfterWrites, hf2]
        | some m1 =>
          cases hf1 : tarExtractfile m1 with
          | none =>
            cases h2 : tarGetmember ms "ffmpeg-master-latest-linux64-gpl/bin/ffprobe" with
            | none => simp [chmodAfterWrites, hf1]
            | some m2 => cases hf2 : tarExtractfile m2 <;> simp [chmodAfterWrites, hf1, hf2]
          | some b1 =>
            cases h2 : tarGetmember ms "ffmpeg-master-latest-linux64-gpl/bin/ffprobe" with
            | none => simp [chmodAfterWrites, hf1]
            | some m2 => cases hf2 : tarExtractfile m2 <;> simp [chmodAfterWrites, hf1, hf2]
    · rw [show keys_to_process "Darwin" = ["macos_intel_ffmpeg", "macos_intel_ffprobe"]
          from rfl] at hkey
      simp only [List.mem_cons, List.not_mem_nil, or_false] at hkey
      rcases hkey with rfl | rfl
      · cases archive with
        | zipA zs =>
          rw [macos_zip_unfold]
          cases h : zipOpen zs "ffmpeg" <;> simp [chmodAfterWrites]
        | tarA ms => rw [macos_zip_tar_mismatch]; decide
        | sevenzA tree => rw [macos_zip_sevenz_mismatch]; decide
      · cases archive with
        | zipA zs => rw [sevenz_zip_mismatch]; decide
        | tarA ms => rw [sevenz_tar_mismatch]; decide
        | sevenzA tree =>
          rw [sevenz_unfold]
          cases h : find7z "ffprobe" (walk temp tree) <;> simp [chmodAfterWrites]
  · cases archiveW with
    | zipA zs =>
      rw [win64_unfold]
      cases h1 : zipOpen zs "ffmpeg-master-latest-win64-gpl/bin/ffmpeg.exe" <;>
        cases h2 : zipOpen zs "ffmpeg-master-latest-win64-gpl/bin/ffprobe.exe" <;>
        simp [chmodsOf]
    | tarA ms => rw [win64_tar_mismatch]; decide
    | sevenzA tree => rw [win64_sevenz_mismatch]; decide

/-- Witness for C8 on Linux with a concrete tar archive and a concrete win64
zip. -/
theorem posix_installs_set_exec_permission_witness :
    chmodAfterWrites (extract_and_install "linux64"
      (ArchiveData.tarA
        [⟨"ffmpeg-master-latest-linux64-gpl/bin/ffmpeg", true, [1]⟩,
         ⟨"ffmpeg-master-latest-linux64-gpl/bin/ffprobe", true, [9]⟩]) "temp_downloads") = true ∧
    chmodsOf (extract_and_install "win64"
      (ArchiveData.zipA
        [⟨"ffmpeg-master-latest-win64-gpl/bin/ffmpeg.exe", [1, 2]⟩,
         ⟨"ffmpeg-master-latest-win64-gpl/bin/ffprobe.exe", [3]⟩]) "temp_downloads") = [] :=
  posix_installs_set_exec_permission "Linux" "linux64" "win64"
    (ArchiveData.tarA
      [⟨"ffmpeg-master-latest-linux64-gpl/bin/ffmpeg", true, [1]⟩,
       ⟨"ffmpeg-master-latest-linux64-gpl/bin/ffprobe", true, [9]⟩])
    (ArchiveData.zipA
      [⟨"ffmpeg-master-latest-win64-gpl/bin/ffmpeg.exe", [1, 2]⟩,
       ⟨"ffmpeg-master-latest-win64-gpl/bin/ffprobe.exe", [3]⟩])
    "temp_downloads" (Or.inl rfl) (by decide) (by decide)

end DownloadBinaries

namespace DownloadBinaries

mutual
/-- A file contained anywhere in the tree shows up in the `(root, files)`
pairs produced by the walk, whatever the depth. -/
theorem containsFile_walk (t : FsTree) (target path : String)
    (h : containsFile t target = true) :
    ∃ pr ∈ walk path t, pr.2.contains target = true := by
  cases t with
  | node files dirs =>
    simp only [containsFile, Bool.or_eq_true] at h
    cases h with
    | inl h => exact ⟨(path, files), by simp [walk], h⟩
    | inr h =>
      obtain ⟨pr, hmem, hc⟩ := containsFileF_walk dirs target path h
      exact ⟨pr, by simp [walk, hmem], hc⟩
/-- `containsFile_walk` over a subdirectory list. -/
theorem containsFileF_walk (f : FsForest) (target path : String)
    (h : containsFileF f target = true) :
    ∃ pr ∈ walkForest path f, pr.2.contains target = true := by
  cases f with
  | nil => simp [containsFileF] at h
  | fcons name t rest =>
    simp only [containsFileF, Bool.or_eq_true] at h
    cases h with
    | inl h =>
      obtain ⟨pr, hmem, hc⟩ := containsFile_walk t target (path ++ "/" ++ name) h
      exact ⟨pr, by simp [walkForest, hmem], hc⟩
    | inr h =>
      obtain ⟨pr, hmem, hc⟩ := containsFileF_walk rest target path h
      exact ⟨pr, by simp [walkForest, hmem], hc⟩
end

/-- `p` is the path built from the first `(root, files)` pair of `l` whose
file list contains `target`: no earlier pair contains it. -/
def firstHit (target : String) (l : List (String × List String)) (p : String) : Prop :=
  ∃ pre root files post,
    l = pre ++ (root, files) :: post ∧
    files.contains target = true ∧
    (∀ pr ∈ pre, pr.2.contains target = false) ∧
    p = root ++ "/" ++ target

/-- What `find7z` returns is the first hit of the walk list. -/
theorem find7z_sound (target : String) (l : List (String × List String)) (p : String)
    (h : find7z target l = some p) : firstHit target l p := by
  induction l with
  | nil => simp [find7z] at h
  | cons hd tl ih =>
    obtain ⟨root, files⟩ := hd
    simp only [find7z] at h
    split_ifs at h with hc
    · exact ⟨[], root, files, tl, by simp, hc, by simp, (Option.some_inj.mp h).symm⟩
    · obtain ⟨pre, r, fs, post, hl, hfs, hpre, hp⟩ := ih h
      refine ⟨(root, files) :: pre, r, fs, post, by simp [hl], hfs, ?_, hp⟩
      intro pr hpr
      rcases List.mem_cons.mp hpr with rfl | hpr
      · exact Bool.not_eq_true _ ▸ by simpa using hc
      · exact hpre pr hpr

/-- If some pair of the walk list contains the target, `find7z` succeeds. -/
theorem find7z_complete (target : String) (l : List (String × List String))
    (hl : ∃ pr ∈ l, pr.2.contains target = true) :
    ∃ p, find7z target l = some p := by
  induction l with
  | nil => simp at hl
  | cons hd tl ih =>
    obtain ⟨root, files⟩ := hd
    simp only [find7z]
    split_ifs with hc
    · exact ⟨_, rfl⟩
    · apply ih
      obtain ⟨pr, hmem, hcc⟩ := hl
      rcases List.mem_cons.mp hmem with rfl | hmem
      · exact absurd hcc (by simpa using hc)
      · exact ⟨pr, hmem, hcc⟩

/-- C7: a 7z-style archive containing the target filename anywhere under the
extraction root is found regardless of depth, and the file installed is the
first match the walk encounters. -/
theorem sevenz_search_depth_independent (tree : FsTree) (temp : String)
    (hc : containsFile tree "ffprobe" = true) :
    ∃ p, find7z "ffprobe" (walk temp tree) = some p ∧
      firstHit "ffprobe" (walk temp tree) p ∧
      Event.copyFile p "src-tauri/binaries/ffprobe-x86_64-apple-darwin"
        ∈ extract_and_install "macos_intel_ffprobe" (ArchiveData.sevenzA tree) temp := by
  obtain ⟨p, hp⟩ := find7z_complete "ffprobe" (walk temp tree)
    (containsFile_walk tree "ffprobe" temp hc)
  refine ⟨p, hp, find7z_sound _ _ _ hp, ?_⟩
  rw [sevenz_unfold, hp]
  simp

/-- Witness for C7 on a target nested three directories deep. -/
theorem sevenz_search_depth_independent_witness :
    ∃ p, find7z "ffprobe"
        (walk "temp_downloads"
          (FsTree.node ["readme.txt"]
            (FsForest.fcons "a"
              (FsTree.node []
                (FsForest.fcons "b"
                  (FsTree.node []
                    (FsForest.fcons "c" (FsTree.node ["ffprobe"] FsForest.nil) FsForest.nil))
                  FsForest.nil))
              FsForest.nil))) = some p ∧
      firstHit "ffprobe"
        (walk "temp_downloads"
          (FsTree.node ["readme.txt"]
            (FsForest.fcons "a"
              (FsTree.node []
                (FsForest.fcons "b"
                  (FsTree.node []
                    (FsForest.fcons "c" (FsTree.node ["ffprobe"] FsForest.nil) FsForest.nil))
                  FsForest.nil))
              FsForest.nil))) p ∧
      Event.copyFile p "src-tauri/binaries/ffprobe-x86_64-apple-darwin"
        ∈ extract_and_install "macos_intel_ffprobe"
            (ArchiveData.sevenzA
              (FsTree.node ["readme.txt"]
                (FsForest.fcons "a"
                  (FsTree.node []
                    (FsForest.fcons "b"
                      (FsTree.node []
                        (FsForest.fcons "c" (FsTree.node ["ffprobe"] FsForest.nil) FsForest.nil))
                      FsForest.nil))
                  FsForest.nil))) "temp_downloads" :=
  sevenz_search_depth_independent _ "temp_downloads" (by decide)

end DownloadBinaries

namespace DownloadBinaries

/-- The loop body of `main` when the download succeeds. -/
theorem processKey_of_fetch_true (f : String → Bool) (a : String → ArchiveData)
    (key : String) (c : Config) (hu : URLS key = some c) (hf : f key = true) :
    processKey f a key =
      [Step.download c.url (temp_dir_name ++ "/" ++ key ++ "." ++ c.ext) true,
       Step.entry key (extract_and_install key (a key) temp_dir_name)] := by
  unfold processKey
  rw [hu]
  simp [hf]

/-- The loop body of `main` when the download fails: the entry is skipped, no
extraction happens. -/
theorem processKey_of_fetch_false (f : String → Bool) (a : String → ArchiveData)
    (key : String) (c : Config) (hu : URLS key = some c) (hf : f key = false) :
    processKey f a key =
      [Step.download c.url (temp_dir_name ++ "/" ++ key ++ "." ++ c.ext) false,
       Step.diag ("Error downloading " ++ c.url)] := by
  unfold processKey
  rw [hu]
  simp [hf]

/-- On a recognized platform, the run is the per-key loop followed by the
best-effort cleanup and the final message, and the exit status is 0. -/
theorem pyMain_supported_steps (os : String) (f : String → Bool)
    (a : String → ArchiveData) (r : Bool)
    (h : os = "Windows" ∨ os = "Linux" ∨ os = "Darwin") :
    (pyMain os f a r).steps =
      (keys_to_process os).flatMap (processKey f a) ++
      (if r then [Step.rmScratch temp_dir_name true]
       else [Step.rmScratch temp_dir_name false,
             Step.diag "Warning: Could not remove temp dir"]) ++
      [Step.diag "Done!"] ∧
    (pyMain os f a r).exitCode = 0 := by
  unfold pyMain
  rw [if_pos h]
  exact ⟨rfl, rfl⟩

/-- On an unrecognized platform, the run is the single diagnostic and exit
status 0. -/
theorem pyMain_unsupported (os : String) (f : String → Bool)
    (a : String → ArchiveData) (r : Bool)
    (h : ¬(os = "Windows" ∨ os = "Linux" ∨ os = "Darwin")) :
    pyMain os f a r = { steps := [Step.diag ("Unsupported OS: " ++ os)], exitCode := 0 } := by
  unfold pyMain
  rw [if_neg h]

/-- Every selected key has a catalog entry. -/
theorem keys_have_config (os k : String)
    (hos : os = "Windows" ∨ os = "Linux" ∨ os = "Darwin")
    (hk : k ∈ keys_to_process os) : ∃ c, URLS k = some c := by
  rcases hos with rfl | rfl | rfl
  · rw [show keys_to_process "Windows" = ["win64"] from rfl] at hk
    simp only [List.mem_cons, List.not_mem_nil, or_false] at hk
    subst hk; exact ⟨_, rfl⟩
  · rw [show keys_to_process "Linux" = ["linux64"] from rfl] at hk
    simp only [List.mem_cons, List.not_mem_nil, or_false] at hk
    subst hk; exact ⟨_, rfl⟩
  · rw [show keys_to_process "Darwin" = ["macos_intel_ffmpeg", "macos_intel_ffprobe"]
        from rfl] at hk
    simp only [List.mem_cons, List.not_mem_nil, or_false] at hk
    rcases hk with rfl | rfl
    · exact ⟨_, rfl⟩
    · exact ⟨_, rfl⟩

end DownloadBinaries

namespace DownloadBinaries

/-- C6 counterexample: in a Darwin run, the 7z strategy extracts straight into
`temp_downloads` — the run's shared scratch directory, the very directory the
sibling entry's archive is downloaded into and the one removed by final
cleanup — not into a private subdirectory of its own. -/
theorem sevenz_private_subdir_counterexample :
    (extract_and_install "macos_intel_ffprobe"
        (ArchiveData.sevenzA (FsTree.node ["ffprobe"] FsForest.nil)) temp_dir_name).head? =
      some (Event.extractAll temp_dir_name) ∧
    Step.download "https://evermeet.cx/ffmpeg/getrelease/zip"
        "temp_downloads/macos_intel_ffmpeg.zip" true
      ∈ (pyMain "Darwin" (fun _ => true)
          (fun _ => ArchiveData.sevenzA (FsTree.node ["ffprobe"] FsForest.nil)) true).steps ∧
    Step.rmScratch temp_dir_name true
      ∈ (pyMain "Darwin" (fun _ => true)
          (fun _ => ArchiveData.sevenzA (FsTree.node ["ffprobe"] FsForest.nil)) true).steps ∧
    temp_dir_name = "temp_downloads" := by
  decide

/-- C6 as amended: the 7z strategy does fully extract the archive before the
recursive search begins, but the extraction root is the shared scratch
directory `temp_downloads` itself — the same directory every entry of the run
downloads its archive into. -/
theorem sevenz_extracts_into_shared_scratch (tree : FsTree) (f : String → Bool)
    (a : String → ArchiveData) (r : Bool)
    (ha : a "macos_intel_ffprobe" = ArchiveData.sevenzA tree)
    (hf : f "macos_intel_ffprobe" = true) :
    ∃ rest,
      extract_and_install "macos_intel_ffprobe" (ArchiveData.sevenzA tree) temp_dir_name =
        Event.extractAll temp_dir_name :: rest ∧
      Step.entry "macos_intel_ffprobe" (Event.extractAll temp_dir_name :: rest)
        ∈ (pyMain "Darwin" f a r).steps ∧
      Step.download "https://evermeet.cx/ffmpeg/getrelease/zip"
        "temp_downloads/macos_intel_ffmpeg.zip" (f "macos_intel_ffmpeg")
        ∈ (pyMain "Darwin" f a r).steps := by
  have hdar : ("Darwin" : String) = "Windows" ∨ ("Darwin" : String) = "Linux" ∨
      ("Darwin" : String) = "Darwin" := Or.inr (Or.inr rfl)
  have hkeys : keys_to_process "Darwin" = ["macos_intel_ffmpeg", "macos_intel_ffprobe"] := rfl
  refine ⟨_, sevenz_unfold tree temp_dir_name, ?_, ?_⟩
  · rw [← sevenz_unfold, (pyMain_supported_steps "Darwin" f a r hdar).1]
    refine List.mem_append_left _ (List.mem_append_left _ ?_)
    apply List.mem_flatMap.mpr
    refine ⟨"macos_intel_ffprobe", by rw [hkeys]; simp, ?_⟩
    rw [processKey_of_fetch_true f a "macos_intel_ffprobe" _ rfl hf, ha]
    simp
  · rw [(pyMain_supported_steps "Darwin" f a r hdar).1]
    refine List.mem_append_left _ (List.mem_append_left _ ?_)
    apply List.mem_flatMap.mpr
    refine ⟨"macos_intel_ffmpeg", by rw [hkeys]; simp, ?_⟩
    cases hfm : f "macos_intel_ffmpeg" with
    | true =>
      rw [processKey_of_fetch_true f a "macos_intel_ffmpeg" _ rfl hfm]
      simp only [List.mem_cons]
      exact Or.inl (by exact congrArg (fun s => Step.download
        "https://evermeet.cx/ffmpeg/getrelease/zip" s true) rfl)
    | false =>
      rw [processKey_of_fetch_false f a "macos_intel_ffmpeg" _ rfl hfm]
      simp only [List.mem_cons]
      exact Or.inl (by exact congrArg (fun s => Step.download
        "https://evermeet.cx/ffmpeg/getrelease/zip" s false) rfl)

/-- Witness for the amended C6 at a concrete run. -/
theorem sevenz_extracts_into_shared_scratch_witness :
    ∃ rest,
      extract_and_install "macos_intel_ffprobe"
          (ArchiveData.sevenzA (FsTree.node ["ffprobe"] FsForest.nil)) temp_dir_name =
        Event.extractAll temp_dir_name :: rest ∧
      Step.entry "macos_intel_ffprobe" (Event.extractAll temp_dir_name :: rest)
        ∈ (pyMain "Darwin" (fun _ => true)
            (fun _ => ArchiveData.sevenzA (FsTree.node ["ffprobe"] FsForest.nil)) true).steps ∧
      Step.download "https://evermeet.cx/ffmpeg/getrelease/zip"
        "temp_downloads/macos_intel_ffmpeg.zip" ((fun _ : String => true) "macos_intel_ffmpeg")
        ∈ (pyMain "Darwin" (fun _ => true)
            (fun _ => ArchiveData.sevenzA (FsTree.node ["ffprobe"] FsForest.nil)) true).steps :=
  sevenz_extracts_into_shared_scratch (FsTree.node ["ffprobe"] FsForest.nil)
    (fun _ => true) (fun _ => ArchiveData.sevenzA (FsTree.node ["ffprobe"] FsForest.nil)) true
    rfl rfl

end DownloadBinaries

namespace DownloadBinaries

/-- `requestedUrls` distributes over concatenation of traces. -/
theorem requestedUrls_append (l1 l2 : List Step) :
    requestedUrls (l1 ++ l2) = requestedUrls l1 ++ requestedUrls l2 :=
  List.filterMap_append l1 l2 _

/-- One loop iteration requests exactly its catalog URL, whether or not the
download succeeds. -/
theorem requestedUrls_processKey (f : String → Bool) (a : String → ArchiveData)
    (key : String) (c : Config) (hu : URLS key = some c) :
    requestedUrls (processKey f a key) = [c.url] := by
  cases hf : f key
  · rw [processKey_of_fetch_false f a key c hu hf]; rfl
  · rw [processKey_of_fetch_true f a key c hu hf]; rfl

/-- C5: a Darwin run selects exactly the two macOS catalog entries and
requests exactly their two URLs; the Windows and Linux archive URLs are never
requested. -/
theorem darwin_fetches_exactly_macos_entries (f : String → Bool)
    (a : String → ArchiveData) (r : Bool) :
    keys_to_process "Darwin" = ["macos_intel_ffmpeg", "macos_intel_ffprobe"] ∧
    requestedUrls (pyMain "Darwin" f a r).steps =
      ["https://evermeet.cx/ffmpeg/getrelease/zip",
       "https://evermeet.cx/ffmpeg/ffprobe-122467-gc3d3377fe1.7z"] ∧
    "https://github.com/BtbN/FFmpeg-Builds/releases/download/latest/ffmpeg-master-latest-win64-gpl.zip"
      ∉ requestedUrls (pyMain "Darwin" f a r).steps ∧
    "https://github.com/BtbN/FFmpeg-Builds/releases/download/latest/ffmpeg-master-latest-linux64-gpl.tar.xz"
      ∉ requestedUrls (pyMain "Darwin" f a r).steps := by
  have heq : requestedUrls (pyMain "Darwin" f a r).steps =
      ["https://evermeet.cx/ffmpeg/getrelease/zip",
       "https://evermeet.cx/ffmpeg/ffprobe-122467-gc3d3377fe1.7z"] := by
    rw [(pyMain_supported_steps "Darwin" f a r (Or.inr (Or.inr rfl))).1]
    rw [show keys_to_process "Darwin" = ["macos_intel_ffmpeg", "macos_intel_ffprobe"] from rfl]
    have hfm : (["macos_intel_ffmpeg", "macos_intel_ffprobe"] : List String).flatMap
        (processKey f a) =
        processKey f a "macos_intel_ffmpeg" ++ processKey f a "macos_intel_ffprobe" := by
      simp
    rw [hfm, requestedUrls_append, requestedUrls_append, requestedUrls_append,
      requestedUrls_processKey f a "macos_intel_ffmpeg" _ rfl,
      requestedUrls_processKey f a "macos_intel_ffprobe" _ rfl]
    have hcl : requestedUrls
        (if r then [Step.rmScratch temp_dir_name true]
         else [Step.rmScratch temp_dir_name false,
               Step.diag "Warning: Could not remove temp dir"]) = [] := by
      cases r <;> rfl
    rw [hcl]
    rfl
  exact ⟨rfl, heq, by rw [heq]; decide, by rw [heq]; decide⟩

/-- C3: a fetch failure for one entry is isolated — every other selected entry
with a successful fetch is still extracted and installed, the shared scratch
directory removal is always attempted at the end (whether or not it succeeds),
and the run always completes with exit status 0. -/
theorem fetch_failure_isolated (os : String) (f : String → Bool)
    (a : String → ArchiveData) (r : Bool) (k : String)
    (hos : os = "Windows" ∨ os = "Linux" ∨ os = "Darwin")
    (hk : k ∈ keys_to_process os) (hkf : f k = false) :
    (∀ k', k' ∈ keys_to_process os → f k' = true →
       Step.entry k' (extract_and_install k' (a k') temp_dir_name)
         ∈ (pyMain os f a r).steps) ∧
    Step.rmScratch temp_dir_name r ∈ (pyMain os f a r).steps ∧
    (pyMain os f a r).steps.getLast? = some (Step.diag "Done!") ∧
    (pyMain os f a r).exitCode = 0 := by
  obtain ⟨hsteps, hexit⟩ := pyMain_supported_steps os f a r hos
  refine ⟨?_, ?_, ?_, hexit⟩
  · intro k' hk' hf'
    obtain ⟨c, hc⟩ := keys_have_config os k' hos hk'
    rw [hsteps]
    refine List.mem_append_left _ (List.mem_append_left _ ?_)
    exact List.mem_flatMap.mpr
      ⟨k', hk', by rw [processKey_of_fetch_true f a k' c hc hf']; simp⟩
  · rw [hsteps]
    refine List.mem_append_left _ (List.mem_append_right _ ?_)
    cases r <;> simp
  · rw [hsteps]
    exact List.getLast?_concat _

/-- Witness for C3 on a Darwin run where the ffmpeg fetch fails and the
ffprobe fetch succeeds, with cleanup also failing. -/
theorem fetch_failure_isolated_witness :
    Step.entry "macos_intel_ffprobe"
        (extract_and_install "macos_intel_ffprobe"
          (ArchiveData.sevenzA (FsTree.node ["ffprobe"] FsForest.nil)) temp_dir_name)
      ∈ (pyMain "Darwin" (fun s => s == "macos_intel_ffprobe")
          (fun _ => ArchiveData.sevenzA (FsTree.node ["ffprobe"] FsForest.nil)) false).steps ∧
    Step.rmScratch temp_dir_name false
      ∈ (pyMain "Darwin" (fun s => s == "macos_intel_ffprobe")
          (fun _ => ArchiveData.sevenzA (FsTree.node ["ffprobe"] FsForest.nil)) false).steps :=
  ⟨(fetch_failure_isolated "Darwin" (fun s => s == "macos_intel_ffprobe")
      (fun _ => ArchiveData.sevenzA (FsTree.node ["ffprobe"] FsForest.nil)) false
      "macos_intel_ffmpeg" (Or.inr (Or.inr rfl)) (by decide) (by decide)).1
      "macos_intel_ffprobe" (by decide) (by decide),
   (fetch_failure_isolated "Darwin" (fun s => s == "macos_intel_ffprobe")
      (fun _ => ArchiveData.sevenzA (FsTree.node ["ffprobe"] FsForest.nil)) false
      "macos_intel_ffmpeg" (Or.inr (Or.inr rfl)) (by decide) (by decide)).2.1⟩

/-- C4 counterexample: an unsupported-platform run exits with status 0 — the
same status as a fully successful run and as a run whose every download fails
— so the exit status does not reflect the unsupported-platform failure. -/
theorem unsupported_platform_exit_counterexample :
    (pyMain "Haiku" (fun _ => true) (fun _ => ArchiveData.zipA []) true).exitCode = 0 ∧
    (pyMain "Windows" (fun _ => true) (fun _ => ArchiveData.zipA []) true).exitCode = 0 ∧
    (pyMain "Linux" (fun _ => false) (fun _ => ArchiveData.zipA []) true).exitCode = 0 ∧
    (pyMain "Haiku" (fun _ => true) (fun _ => ArchiveData.zipA []) true).steps =
      [Step.diag "Unsupported OS: Haiku"] := by
  decide

/-- C4 as amended: an unrecognized platform makes the run print the
unsupported-platform diagnostic and return before any network request, but the
process exit status is 0 in every run — unsupported platform and per-entry
failures alike. -/
theorem unsupported_platform_aborts_before_network (os : String) (f : String → Bool)
    (a : String → ArchiveData) (r : Bool)
    (h : ¬(os = "Windows" ∨ os = "Linux" ∨ os = "Darwin")) :
    (pyMain os f a r).steps = [Step.diag ("Unsupported OS: " ++ os)] ∧
    requestedUrls (pyMain os f a r).steps = [] ∧
    (∀ os' : String, ∀ f' : String → Bool, ∀ a' : String → ArchiveData, ∀ r' : Bool,
       (pyMain os' f' a' r').exitCode = 0) := by
  rw [pyMain_unsupported os f a r h]
  refine ⟨rfl, rfl, ?_⟩
  intro os' f' a' r'
  unfold pyMain
  split <;> rfl

/-- Witness for the amended C4 at the concrete platform string "Haiku". -/
theorem unsupported_platform_aborts_before_network_witness :
    (pyMain "Haiku" (fun _ => true) (fun _ => ArchiveData.zipA []) true).steps =
      [Step.diag ("Unsupported OS: " ++ "Haiku")] ∧
    requestedUrls (pyMain "Haiku" (fun _ => true) (fun _ => ArchiveData.zipA []) true).steps = [] ∧
    (∀ os' : String, ∀ f' : String → Bool, ∀ a' : String → ArchiveData, ∀ r' : Bool,
       (pyMain os' f' a' r').exitCode = 0) :=
  unsupported_platform_aborts_before_network "Haiku" (fun _ => true)
    (fun _ => ArchiveData.zipA []) true (by decide)

end DownloadBinaries
